import Mathlib

/-!
Verification of the request admission gate of a self-hosted text-generation
HTTP service (backend/app: `auth.py`, `main.py`, `models.py`, `config.py`).

The embedding is shallow: each Python function is translated into a total
Lean function.  External effects are made explicit:

* the two allowlist files are values of type `FileState` (readable content,
  missing, or failing with some other I/O error — Python's `open` raises
  `FileNotFoundError` for a missing file and another `OSError` otherwise);
* the third-party inference library (tokenizer / model loading, generation,
  decoding) is an oracle `InferenceEnv` whose operations may return a value
  or raise (`Except String`), with the raised exception's message;
* the one piece of shared mutable state, the global `ai_model` instance, is
  threaded explicitly as a value of type `AIModel`;
* Python string primitives (`strip`, `lower`, `in`, `replace`) are
  re-implemented over `List Char` so that everything evaluates by `decide`
  (ASCII whitespace only, which covers every literal appearing in the code).
-/

namespace BudgetAI

/-! ### Python string primitives -/

/-- Python `s.strip()`: drop leading and trailing whitespace. -/
def pyStrip (s : String) : String :=
  ⟨((s.data.dropWhile Char.isWhitespace).reverse.dropWhile Char.isWhitespace).reverse⟩

/-- Python `s.lower()`. -/
def pyLower (s : String) : String :=
  ⟨s.data.map Char.toLower⟩

/-- Does `needle` occur as a contiguous sublist of `hay`? -/
def hasSublist (needle : List Char) : List Char → Bool
  | [] => needle.isEmpty
  | c :: rest => needle.isPrefixOf (c :: rest) || hasSublist needle rest

/-- Python `needle in hay` on strings (substring containment). -/
def pyContains (needle hay : String) : Bool :=
  hasSublist needle.data hay.data

/-- Replace every occurrence of `needle` (left to right, non-overlapping),
fuel-driven so that the kernel can evaluate it; `fuel` is instantiated with
the haystack's length, which suffices for a non-empty `needle` (the only
use site passes a non-empty literal prompt). -/
def replaceGo (needle repl : List Char) : Nat → List Char → List Char
  | 0, hay => hay
  | _ + 1, [] => []
  | fuel + 1, c :: rest =>
    if needle.isPrefixOf (c :: rest) then
      repl ++ replaceGo needle repl fuel (rest.drop (needle.length - 1))
    else
      c :: replaceGo needle repl fuel rest

/-- Python `hay.replace(needle, repl)`. -/
def pyReplace (hay needle repl : String) : String :=
  ⟨replaceGo needle.data repl.data hay.data.length hay.data⟩

/-! ### File system model

A flat text file as `auth.load_keys` sees it: either readable (its lines,
exactly as Python's line iteration yields them, trailing newline included),
or absent (`open` raises `FileNotFoundError`), or failing with some other
I/O error carrying a message. -/

inductive FileState where
  | content (lines : List String)
  | missing
  | ioError (msg : String)
deriving DecidableEq, Repr

/-! ### `auth.py` -/

/-- `auth.load_keys`: `[line.strip() for line in f if line.strip()]`,
returning `[]` when the file is missing (`except FileNotFoundError`), and
propagating any other I/O error (no other handler is installed). -/
def load_keys : FileState → Except String (List String)
  | .content lines =>
      .ok (lines.filterMap fun line =>
        if pyStrip line = "" then none else some (pyStrip line))
  | .missing => .ok []
  | .ioError msg => .error msg

/-- `auth.verify_api_key`: membership of the presented key in the key file;
a `None` header (absent `X-API-Key`) is never a member of a list of
strings.  Propagates `load_keys`' exception, if any. -/
def verify_api_key (keysFile : FileState) (api_key : Option String) :
    Except String Bool :=
  (load_keys keysFile).map fun valid_keys =>
    match api_key with
    | some k => valid_keys.contains k
    | none => false

/-- `auth.is_whitelisted`: dev-mode loopback short-circuit, then membership
in the whitelist file.  Propagates `load_keys`' exception, if any. -/
def is_whitelisted (dev_mode : Bool) (whitelistFile : FileState) (ip : String) :
    Except String Bool :=
  if dev_mode && (ip == "127.0.0.1" || ip == "::1") then
    .ok true
  else
    (load_keys whitelistFile).map fun whitelist => whitelist.contains ip

/-! ### `models.py`

The third-party inference stack (HuggingFace hub login, tokenizer and model
loading, `model.generate`, `tokenizer.decode`) is abstracted as an oracle:
each operation either returns a value or raises, carrying the exception's
`str(e)`.  `generate` is keyed by the currently loaded model's name and the
formatted prompt; it returns Python's `outputs` — possibly `None`, else a
list of token sequences. -/

structure InferenceEnv where
  /-- the `huggingface_hub` import / credential check / `login` block.
  In the shipped code this step deterministically raises: `models.py`
  reads `settings.HUGGINGFACE_API_KEY`, a field the `Settings` class of
  `config.py` does not declare, so the attribute access raises
  `AttributeError` and every load fails.  The oracle keeps a success
  outcome only to model the code's own control flow past that line. -/
  login : Except String Unit
  /-- `AutoTokenizer.from_pretrained(name, ...)`. -/
  tokenizerLoad : String → Except String Unit
  /-- `AutoModelForCausalLM.from_pretrained(name, ...)`. -/
  modelLoad : String → Except String Unit
  /-- `self.tokenizer(formatted_prompt, ...)`, giving `input_ids.shape[1]`. -/
  tokenize : String → Except String Nat
  /-- `self.model.generate(...)` for (loaded model name, formatted prompt). -/
  generate : String → String → Except String (Option (List (List Nat)))
  /-- `self.tokenizer.decode(tokens, skip_special_tokens=True)`. -/
  decode : List Nat → Except String String

/-- The mutable fields of the global `AIModel` instance that the control
flow observes: `self.model_name`, and whether `self.model` /
`self.tokenizer` are non-`None`. -/
structure AIModel where
  model_name : String
  modelLoaded : Bool
  tokenizerLoaded : Bool
deriving DecidableEq, Repr

/-- `ai_model = AIModel("google/gemma-3-270m")`: the global instance;
`__init__` leaves `self.model` and `self.tokenizer` as `None`. -/
def ai_model : AIModel :=
  { model_name := "google/gemma-3-270m", modelLoaded := false, tokenizerLoaded := false }

/-- `self.available_models` (set in `__init__`, never mutated). -/
def available_models : List (String × String) :=
  [("gemma", "google/gemma-2-2b-it"), ("qwen", "Qwen/Qwen2-0.5B-Instruct")]

/-- The hard-coded fallback model name used when a gemma model fails to load. -/
def qwenName : String := "Qwen/Qwen2-0.5B-Instruct"

/-- `AIModel.load_model`.  Mirrors the Python control flow statement by
statement: `if model_name:` (truthiness — `None` and `""` both skip the
assignment), login block, tokenizer load, model load with a gemma-to-Qwen
fallback, outer `except Exception: return False`.  State mutations that
happened before an exception survive it (the method mutates `self`).
Returns the new state and the method's boolean result. -/
def AIModel.load_model (env : InferenceEnv) (st : AIModel)
    (model_name : Option String) : AIModel × Bool :=
  let name :=
    match model_name with
    | some n => if n = "" then st.model_name else n
    | none => st.model_name
  let st1 := { st with model_name := name }
  match env.login with
  | .error _ => (st1, false)
  | .ok _ =>
    match env.tokenizerLoad name with
    | .error _ => (st1, false)
    | .ok _ =>
      let st2 := { st1 with tokenizerLoaded := true }
      match env.modelLoad name with
      | .ok _ => ({ st2 with modelLoaded := true }, true)
      | .error _ =>
        if pyContains "gemma" (pyLower name) then
          -- fallback: `self.model_name = "Qwen/..."` then reload model+tokenizer
          let st3 := { st2 with model_name := qwenName }
          match env.modelLoad qwenName with
          | .error _ => (st3, false)
          | .ok _ =>
            let st4 := { st3 with modelLoaded := true }
            match env.tokenizerLoad qwenName with
            | .error _ => (st4, false)
            | .ok _ => (st4, true)
        else
          -- `raise model_error`, caught by the outer handler
          (st2, false)

/-- The fixed strings returned on failure paths of `generate_response`. -/
def sorryMsg : String := "I'm sorry, I couldn't generate a response."

/-- The gemma / Qwen chat-template formatting of the prompt. -/
def formatted_prompt (name prompt : String) : String :=
  if pyContains "gemma" (pyLower name) then
    "<start_of_turn>user\n" ++ prompt ++ "<end_of_turn>\n<start_of_turn>model\n"
  else
    "<|im_start|>system\nYou are a helpful AI assistant.<|im_end|>\n<|im_start|>user\n"
      ++ prompt ++ "<|im_end|>\n<|im_start|>assistant\n"

/-- The body of `AIModel.generate_response` after the model is known to be
loaded: tokenize, generate, then the decode block with its inner
`try/except` fallback and the final `return response if response else ...`.
Raises from tokenize/generate land in the outer handler (`"Error
generating response: " ++ e`); raises from the two decode calls are caught
by the inner handlers. -/
def AIModel.gen_after_load (env : InferenceEnv) (st : AIModel)
    (prompt : String) : AIModel × String :=
  let fp := formatted_prompt st.model_name prompt
  match env.tokenize fp with
  | .error e => (st, "Error generating response: " ++ e)
  | .ok input_length =>
    match env.generate st.model_name fp with
    | .error e => (st, "Error generating response: " ++ e)
    | .ok outputsOpt =>
      match outputsOpt with
      | none => (st, sorryMsg)
      | some outputs =>
        if outputs.length = 0 then (st, sorryMsg)
        else
          let generated_tokens := outputs.headD []
          if generated_tokens.length ≤ input_length then (st, sorryMsg)
          else
            let new_tokens := generated_tokens.drop input_length
            let response? :=
              match env.decode new_tokens with
              | .ok r => some (pyStrip r)
              | .error _ =>
                match env.decode generated_tokens with
                | .ok r =>
                  let r1 := pyStrip r
                  some (if pyContains fp r1 then pyStrip (pyReplace r1 fp "") else r1)
                | .error _ => none
            match response? with
            | none => (st, sorryMsg)
            | some response =>
              (st, if response = "" then sorryMsg else response)

/-- The part of `AIModel.generate_response` after the optional switch: the
`if not self.model or not self.tokenizer` lazy load (early-returning
`"Error: Model failed to load"` on failure), then the generation body. -/
def AIModel.gen_after_switch (env : InferenceEnv) (st : AIModel)
    (prompt : String) : AIModel × String :=
  if !st.modelLoaded || !st.tokenizerLoaded then
    let res := AIModel.load_model env st none
    if res.2 then AIModel.gen_after_load env res.1 prompt
    else (res.1, "Error: Model failed to load")
  else
    AIModel.gen_after_load env st prompt

/-- `AIModel.generate_response`: optional switch to a requested model
(truthy and different from the current name; early-returning
`"Error: Failed to load model ..."` on failure), then `gen_after_switch`.
Total by construction — every raise of the inference stack is converted
into a returned string, matching the method's catch-all handlers. -/
def AIModel.generate_response (env : InferenceEnv) (st : AIModel)
    (prompt : String) (model_name : Option String) : AIModel × String :=
  match model_name with
  | some n =>
    if n ≠ "" ∧ n ≠ st.model_name then
      let res := AIModel.load_model env st (some n)
      if res.2 then AIModel.gen_after_switch env res.1 prompt
      else (res.1, "Error: Failed to load model " ++ n)
    else AIModel.gen_after_switch env st prompt
  | none => AIModel.gen_after_switch env st prompt

/-- Module-level `generate_response`, delegating to the global instance. -/
def generate_response (env : InferenceEnv) (st : AIModel)
    (prompt : String) (model_name : Option String) : AIModel × String :=
  AIModel.generate_response env st prompt model_name

/-- Module-level `get_available_models`. -/
def get_available_models : List (String × String) := available_models

/-- Module-level `get_current_model`. -/
def get_current_model (st : AIModel) : String := st.model_name

/-! ### `main.py`

A route's outcome is either a JSON body (`ok`) or an `HTTPException` with a
status code and detail string.  A whole-request outcome wraps that in
`Except String`: the `check_ip_whitelist` middleware has no handler around
`is_whitelisted`, so an I/O error raised there escapes the application
(`.error`); inside `generate_text` the catch-all `except Exception` turns
such a raise into a 500 instead. -/

inductive Response (α : Type) where
  | ok (body : α)
  | httpError (status : Nat) (detail : String)
deriving DecidableEq, Repr

/-- The fixed apology body returned when generation exceeds the 600 s
ceiling (`except asyncio.TimeoutError`). -/
def apologyMsg : String :=
  "I apologize, but your request is taking longer than expected to process. Please try with a shorter prompt or try again later."

/-- `is_frontend_request` (inlined in `generate_text`): Python truthiness
of the header value (`None` and `""` are falsy) conjoined with the three
substring tests, for `Origin` then `Referer`. -/
def is_frontend_request (origin referer : Option String) : Bool :=
  (match origin with
   | some o =>
        (o != "")
          && (pyContains "localhost" o || pyContains "127.0.0.1" o
              || pyContains "self-hosted-budget-ai-api.eshaam.co.za" o)
   | none => false)
  ||
  (match referer with
   | some r =>
        (r != "")
          && (pyContains "localhost" r || pyContains "127.0.0.1" r
              || pyContains "self-hosted-budget-ai-api.eshaam.co.za" r)
   | none => false)

/-- The dispatcher part of `generate_text`: run `generate_response` on the
single-worker executor with a 600 s ceiling.  `timedOut` records the
external real-time event `asyncio.TimeoutError`; the worker thread is not
cancelled, so the state mutation of `generate_response` happens either
way.  Both branches return a success body. -/
def dispatch_generation (env : InferenceEnv) (st : AIModel)
    (prompt : String) (model_name : Option String) (timedOut : Bool) :
    Response String × AIModel :=
  let res := generate_response env st prompt model_name
  if timedOut then (.ok apologyMsg, res.1) else (.ok res.2, res.1)

/-- The `generate_text` route body (after the middleware): frontend
exemption, else the `X-API-Key` check — where `verify_api_key` raising is
caught by the route's `except Exception` as a 500 — then dispatch. -/
def generate_text (env : InferenceEnv) (st : AIModel) (keysFile : FileState)
    (origin referer api_key : Option String)
    (prompt : String) (model_name : Option String) (timedOut : Bool) :
    Response String × AIModel :=
  if !is_frontend_request origin referer then
    match verify_api_key keysFile api_key with
    | .error e => (.httpError 500 ("Internal server error: " ++ e), st)
    | .ok false =>
        (.httpError 401 "Invalid API key required for direct API access", st)
    | .ok true => dispatch_generation env st prompt model_name timedOut
  else
    dispatch_generation env st prompt model_name timedOut

/-- The `check_ip_whitelist` middleware composed with the `generate_text`
route: runs first for every inbound request; a non-whitelisted client gets
403 and the route body never runs (state untouched). -/
def full_generate (dev_mode : Bool) (whitelistFile keysFile : FileState)
    (ip : String) (origin referer api_key : Option String)
    (env : InferenceEnv) (st : AIModel)
    (prompt : String) (model_name : Option String) (timedOut : Bool) :
    Except String (Response String) × AIModel :=
  match is_whitelisted dev_mode whitelistFile ip with
  | .error e => (.error e, st)
  | .ok false => (.ok (.httpError 403 "IP not whitelisted"), st)
  | .ok true =>
    let res := generate_text env st keysFile origin referer api_key prompt model_name timedOut
    (.ok res.1, res.2)

/-- The `health_check` route body. -/
def health_check : Response (String × String) :=
  .ok ("healthy", "API is running")

/-- The `check_ip_whitelist` middleware composed with the `health_check`
route. -/
def full_health (dev_mode : Bool) (whitelistFile : FileState) (ip : String) :
    Except String (Response (String × String)) :=
  match is_whitelisted dev_mode whitelistFile ip with
  | .error e => .error e
  | .ok false => .ok (.httpError 403 "IP not whitelisted")
  | .ok true => .ok health_check

/-- The `switch_model` route body: name validation against the keys and
values of `available_models`, then a probe `generate_response("Hello",
name)`.  The route's `except Exception → 500` branch has no arm here:
`generate_response` is total (its own catch-all returns error strings), so
that branch is unreachable — the subject of claim C7. -/
def switch_model (env : InferenceEnv) (st : AIModel) (model_name : String) :
    Response (String × String) × AIModel :=
  let available := get_available_models
  if !(available.any fun p => p.1 == model_name)
      && !(available.any fun p => p.2 == model_name) then
    (.httpError 400 ("Model " ++ model_name ++ " not available"), st)
  else
    let res := generate_response env st "Hello" (some model_name)
    (.ok ("Successfully switched to " ++ model_name, get_current_model res.1), res.1)

/-! ### Concrete inference oracles used to instantiate the theorems -/

/-- An oracle on which every inference-stack call succeeds. -/
def witnessEnv : InferenceEnv where
  login := .ok ()
  tokenizerLoad := fun _ => .ok ()
  modelLoad := fun _ => .ok ()
  tokenize := fun _ => .ok 2
  generate := fun _ _ => .ok (some [[1, 2, 3, 4, 5]])
  decode := fun _ => .ok " Hello there "

/-- An oracle on which loading succeeds but `model.generate` raises. -/
def failGenEnv : InferenceEnv where
  login := .ok ()
  tokenizerLoad := fun _ => .ok ()
  modelLoad := fun _ => .ok ()
  tokenize := fun _ => .ok 2
  generate := fun _ _ => .error "boom"
  decode := fun _ => .ok " Hello there "

/-- The oracle matching the shipped configuration: `config.py` declares no
`HUGGINGFACE_API_KEY` field, so the credential check at the top of
`load_model` raises `AttributeError` on every call and no load can
succeed; the remaining operations are never reached. -/
def attrErrEnv : InferenceEnv where
  login := .error "'Settings' object has no attribute 'HUGGINGFACE_API_KEY'"
  tokenizerLoad := fun _ => .ok ()
  modelLoad := fun _ => .ok ()
  tokenize := fun _ => .ok 2
  generate := fun _ _ => .ok (some [[1, 2, 3, 4, 5]])
  decode := fun _ => .ok " Hello there "

/-- An oracle on which every inference-stack call raises. -/
def loadFailEnv : InferenceEnv where
  login := .error "no network"
  tokenizerLoad := fun _ => .error "no network"
  modelLoad := fun _ => .error "no network"
  tokenize := fun _ => .error "no network"
  generate := fun _ _ => .error "no network"
  decode := fun _ => .error "no network"

/-- The admission classification of a whole-request outcome: the escaped
exception, the rejection status code, or `none` for an admitted request
(one whose outcome is a success body from the dispatcher). -/
def admissionDecision (res : Except String (Response String) × AIModel) :
    Except String (Option Nat) :=
  match res.1 with
  | .error e => .error e
  | .ok (.httpError s _) => .ok (some s)
  | .ok (.ok _) => .ok none

/-- The trusted host fragments of the inlined frontend check. -/
def trustedFragments : List String :=
  ["localhost", "127.0.0.1", "self-hosted-budget-ai-api.eshaam.co.za"]

/-- Specification-side reading of the exemption: some trusted fragment
occurs in the header value as a contiguous substring. -/
def mentionsTrusted (s : String) : Prop :=
  ∃ frag ∈ trustedFragments, frag.data <:+: s.data

end BudgetAI

deriving instance DecidableEq for Except

namespace BudgetAI

/-! ### Theorems -/

/-- C1: for every IP string and every state of the whitelist file: with
dev-mode on and a loopback IP (`127.0.0.1` or `::1`), `is_whitelisted`
returns true regardless of the file (readable, empty, missing, or even
unreadable); if the IP is an entry of the whitelist file, it returns true
regardless of dev-mode; if the IP is not an entry and the dev-loopback
short-circuit does not apply, it returns false. -/
theorem C1_is_whitelisted_cases (dev : Bool) (fs : FileState) (ip : String) :
    ((dev = true ∧ (ip = "127.0.0.1" ∨ ip = "::1")) →
        is_whitelisted dev fs ip = .ok true)
  ∧ (∀ entries, load_keys fs = .ok entries → entries.contains ip = true →
        is_whitelisted dev fs ip = .ok true)
  ∧ (∀ entries, load_keys fs = .ok entries → entries.contains ip = false →
        ¬(dev = true ∧ (ip = "127.0.0.1" ∨ ip = "::1")) →
        is_whitelisted dev fs ip = .ok false) := by
  refine ⟨?_, ?_, ?_⟩
  · rintro ⟨hdev, hip⟩
    subst hdev
    unfold is_whitelisted
    rcases hip with h | h <;> subst h <;> simp
  · intro entries hload hmem
    unfold is_whitelisted
    split
    · rfl
    · rw [hload]
      simp only [Except.map]
      simpa using hmem
  · intro entries hload hmem hnot
    unfold is_whitelisted
    split
    · rename_i hcond
      simp only [Bool.and_eq_true, Bool.or_eq_true, beq_iff_eq] at hcond
      exact absurd hcond hnot
    · rw [hload]
      simp only [Except.map]
      simpa using hmem

/-- Witness for C1 at concrete inputs: dev-loopback with a missing file,
a whitelisted external IP with dev-mode off, and a non-whitelisted IP that
is not loopback. -/
theorem C1_witness :
    is_whitelisted true FileState.missing "127.0.0.1" = .ok true
  ∧ is_whitelisted false (FileState.content ["203.0.113.5\n"]) "203.0.113.5" = .ok true
  ∧ is_whitelisted true (FileState.content ["203.0.113.5\n"]) "10.0.0.1" = .ok false :=
  ⟨(C1_is_whitelisted_cases true FileState.missing "127.0.0.1").1 ⟨rfl, Or.inl rfl⟩,
   (C1_is_whitelisted_cases false (FileState.content ["203.0.113.5\n"]) "203.0.113.5").2.1
      ["203.0.113.5"] (by decide) (by decide),
   (C1_is_whitelisted_cases true (FileState.content ["203.0.113.5\n"]) "10.0.0.1").2.2
      ["203.0.113.5"] (by decide) (by decide) (by decide)⟩

/-- C2 counterexample: an unreadable-but-present file (an I/O error other
than non-existence, e.g. a permission error) does NOT load as the empty
collection — `load_keys` has a handler only for `FileNotFoundError`, so
the exception propagates. -/
theorem C2_counterexample :
    load_keys (FileState.ioError "Permission denied") = Except.error "Permission denied"
  ∧ load_keys (FileState.ioError "Permission denied") ≠ Except.ok [] :=
  ⟨rfl, by decide⟩

/-- The line comprehension of `load_keys`, rephrased as strip-then-drop-blanks. -/
theorem filterMap_strip_eq (lines : List String) :
    (lines.filterMap fun line => if pyStrip line = "" then none else some (pyStrip line))
      = (lines.map pyStrip).filter fun l => l != "" := by
  induction lines with
  | nil => rfl
  | cons a t ih =>
    by_cases h : pyStrip a = "" <;>
      simp [List.filterMap_cons, List.filter_cons, h, ih]

/-- C2 amended: `load_keys` returns one entry per stripped non-empty line
of a readable file; a missing file loads as the empty collection; but any
other I/O error is NOT converted to the empty collection — it propagates
as a raised exception (fail-open into an error, not fail-closed-to-empty). -/
theorem C2_load_keys_amended (lines : List String) (msg : String) :
    load_keys (FileState.content lines)
      = .ok ((lines.map pyStrip).filter fun l => l != "")
  ∧ load_keys FileState.missing = .ok []
  ∧ load_keys (FileState.ioError msg) = .error msg := by
  exact ⟨congrArg Except.ok (filterMap_strip_eq lines), rfl, rfl⟩

/-- The dispatcher always produces a success body: the apology on timeout,
otherwise whatever string `generate_response` returned. -/
theorem dispatch_generation_eq (env : InferenceEnv) (st : AIModel)
    (prompt : String) (model_name : Option String) (timedOut : Bool) :
    dispatch_generation env st prompt model_name timedOut
      = (.ok (if timedOut then apologyMsg
              else (AIModel.generate_response env st prompt model_name).2),
         (AIModel.generate_response env st prompt model_name).1) := by
  cases timedOut <;> rfl

/-- Helper: a whitelist-file I/O error escapes the middleware unhandled. -/
theorem full_generate_crash (dev : Bool) (wl kf : FileState) (ip : String)
    (origin referer api_key : Option String) (env : InferenceEnv)
    (st : AIModel) (prompt : String) (model_name : Option String)
    (timedOut : Bool) (e : String)
    (hwl : is_whitelisted dev wl ip = .error e) :
    full_generate dev wl kf ip origin referer api_key env st prompt model_name timedOut
      = (.error e, st) := by
  unfold full_generate
  rw [hwl]

/-- Helper: a non-whitelisted client is rejected 403 by the middleware. -/
theorem full_generate_forbidden (dev : Bool) (wl kf : FileState) (ip : String)
    (origin referer api_key : Option String) (env : InferenceEnv)
    (st : AIModel) (prompt : String) (model_name : Option String)
    (timedOut : Bool)
    (hwl : is_whitelisted dev wl ip = .ok false) :
    full_generate dev wl kf ip origin referer api_key env st prompt model_name timedOut
      = (.ok (.httpError 403 "IP not whitelisted"), st) := by
  unfold full_generate
  rw [hwl]

/-- Helper: no exemption and a failed key check yield 401. -/
theorem full_generate_unauthorized (dev : Bool) (wl kf : FileState) (ip : String)
    (origin referer api_key : Option String) (env : InferenceEnv)
    (st : AIModel) (prompt : String) (model_name : Option String)
    (timedOut : Bool)
    (hwl : is_whitelisted dev wl ip = .ok true)
    (hfr : is_frontend_request origin referer = false)
    (hk : verify_api_key kf api_key = .ok false) :
    full_generate dev wl kf ip origin referer api_key env st prompt model_name timedOut
      = (.ok (.httpError 401 "Invalid API key required for direct API access"), st) := by
  unfold full_generate
  rw [hwl]
  unfold generate_text
  rw [hfr, hk]
  rfl

/-- Helper: no exemption and a key-file I/O error are caught by the
route's catch-all as a 500. -/
theorem full_generate_keyfile_error (dev : Bool) (wl kf : FileState) (ip : String)
    (origin referer api_key : Option String) (env : InferenceEnv)
    (st : AIModel) (prompt : String) (model_name : Option String)
    (timedOut : Bool) (e : String)
    (hwl : is_whitelisted dev wl ip = .ok true)
    (hfr : is_frontend_request origin referer = false)
    (hk : verify_api_key kf api_key = .error e) :
    full_generate dev wl kf ip origin referer api_key env st prompt model_name timedOut
      = (.ok (.httpError 500 ("Internal server error: " ++ e)), st) := by
  unfold full_generate
  rw [hwl]
  unfold generate_text
  rw [hfr, hk]
  rfl

/-- Helper: an admitted request (whitelisted IP, and frontend-exempt or a
valid key) runs the dispatcher. -/
theorem full_generate_admitted (dev : Bool) (wl kf : FileState) (ip : String)
    (origin referer api_key : Option String) (env : InferenceEnv)
    (st : AIModel) (prompt : String) (model_name : Option String)
    (timedOut : Bool)
    (hwl : is_whitelisted dev wl ip = .ok true)
    (hkey : is_frontend_request origin referer = true
            ∨ verify_api_key kf api_key = .ok true) :
    full_generate dev wl kf ip origin referer api_key env st prompt model_name timedOut
      = (.ok (dispatch_generation env st prompt model_name timedOut).1,
         (dispatch_generation env st prompt model_name timedOut).2) := by
  unfold full_generate
  rw [hwl]
  unfold generate_text
  rcases hkey with hfr | hk
  · rw [hfr]
    rfl
  · cases hfr : is_frontend_request origin referer
    · simp only [hfr, Bool.not_false, if_true]
      rw [hk]
    · rfl

/-- C3 counterexample: a request from a whitelisted IP with no headers and
a MISSING key, when the key file is unreadable (an I/O error other than
non-existence): the claim demands 401, but `verify_api_key` raises and the
route's catch-all (`except Exception`) answers 500 instead. -/
theorem C3_counterexample :
    full_generate false (FileState.content ["1.2.3.4\n"])
        (FileState.ioError "Permission denied") "1.2.3.4"
        none none none witnessEnv ai_model "hi" none false
      = (.ok (.httpError 500 "Internal server error: Permission denied"), ai_model)
  ∧ (full_generate false (FileState.content ["1.2.3.4\n"])
        (FileState.ioError "Permission denied") "1.2.3.4"
        none none none witnessEnv ai_model "hi" none false).1
      ≠ .ok (.httpError 401 "Invalid API key required for direct API access") :=
  ⟨rfl, by decide⟩

/-- C3 amended: the IP check runs before any other processing: a
non-whitelisted client IP yields 403 regardless of Origin/Referer/key,
with the model state untouched; a whitelisted IP with no frontend
exemption yields 401 when the key file loads (readable or absent) and the
presented key is missing or not among its entries — but when the key-file
read fails with another I/O error, the route's catch-all yields 500 even
for a missing key; a whitelisted IP with the exemption or a valid key
forwards the request to the generation dispatcher. -/
theorem C3_admission_order_amended (dev : Bool) (wl kf : FileState) (ip : String)
    (origin referer api_key : Option String) (env : InferenceEnv)
    (st : AIModel) (prompt : String) (model_name : Option String)
    (timedOut : Bool) :
    (is_whitelisted dev wl ip = .ok false →
        full_generate dev wl kf ip origin referer api_key env st prompt model_name timedOut
          = (.ok (.httpError 403 "IP not whitelisted"), st))
  ∧ (∀ valid_keys, is_whitelisted dev wl ip = .ok true →
     is_frontend_request origin referer = false →
     load_keys kf = .ok valid_keys →
     (api_key = none ∨ ∃ k, api_key = some k ∧ valid_keys.contains k = false) →
        full_generate dev wl kf ip origin referer api_key env st prompt model_name timedOut
          = (.ok (.httpError 401 "Invalid API key required for direct API access"), st))
  ∧ (∀ e, is_whitelisted dev wl ip = .ok true →
     is_frontend_request origin referer = false →
     load_keys kf = .error e →
        full_generate dev wl kf ip origin referer api_key env st prompt model_name timedOut
          = (.ok (.httpError 500 ("Internal server error: " ++ e)), st))
  ∧ (is_whitelisted dev wl ip = .ok true →
     (is_frontend_request origin referer = true ∨ verify_api_key kf api_key = .ok true) →
        full_generate dev wl kf ip origin referer api_key env st prompt model_name timedOut
          = (.ok (dispatch_generation env st prompt model_name timedOut).1,
             (dispatch_generation env st prompt model_name timedOut).2)) := by
  refine ⟨full_generate_forbidden dev wl kf ip origin referer api_key env st prompt
            model_name timedOut,
          ?_, ?_,
          full_generate_admitted dev wl kf ip origin referer api_key env st prompt
            model_name timedOut⟩
  · intro valid_keys hwl hfr hload hmiss
    have hk : verify_api_key kf api_key = .ok false := by
      unfold verify_api_key
      rw [hload]
      rcases hmiss with rfl | ⟨k, rfl, hmem⟩
      · rfl
      · simp only [Except.map]
        simpa using hmem
    exact full_generate_unauthorized dev wl kf ip origin referer api_key env st prompt
      model_name timedOut hwl hfr hk
  · intro e hwl hfr hload
    have hk : verify_api_key kf api_key = .error e := by
      unfold verify_api_key
      rw [hload]
      rfl
    exact full_generate_keyfile_error dev wl kf ip origin referer api_key env st prompt
      model_name timedOut e hwl hfr hk

/-- Witness for C3's amended theorem: a non-whitelisted IP is rejected 403
even with a trusted Origin; a whitelisted IP with no headers and no key
gets 401 when the key file is readable; the same request gets 500 when the
key file is unreadable; a whitelisted IP with a valid key is dispatched. -/
theorem C3_amended_witness :
    full_generate false (FileState.content ["1.2.3.4\n"]) FileState.missing "9.9.9.9"
        (some "http://localhost:5173") none none witnessEnv ai_model "hi" none false
      = (.ok (.httpError 403 "IP not whitelisted"), ai_model)
  ∧ full_generate false (FileState.content ["1.2.3.4\n"]) (FileState.content ["k1\n"]) "1.2.3.4"
        none none none witnessEnv ai_model "hi" none false
      = (.ok (.httpError 401 "Invalid API key required for direct API access"), ai_model)
  ∧ full_generate false (FileState.content ["1.2.3.4\n"]) (FileState.ioError "Permission denied")
        "1.2.3.4" none none none witnessEnv ai_model "hi" none false
      = (.ok (.httpError 500 "Internal server error: Permission denied"), ai_model)
  ∧ full_generate false (FileState.content ["1.2.3.4\n"]) (FileState.content ["k1\n"]) "1.2.3.4"
        none none (some "k1") witnessEnv ai_model "hi" none false
      = (.ok (dispatch_generation witnessEnv ai_model "hi" none false).1,
         (dispatch_generation witnessEnv ai_model "hi" none false).2) :=
  ⟨(C3_admission_order_amended false (FileState.content ["1.2.3.4\n"]) FileState.missing
      "9.9.9.9" (some "http://localhost:5173") none none witnessEnv ai_model "hi" none
      false).1 (by decide),
   (C3_admission_order_amended false (FileState.content ["1.2.3.4\n"])
      (FileState.content ["k1\n"]) "1.2.3.4" none none none witnessEnv ai_model "hi" none
      false).2.1 ["k1"] (by decide) (by decide) (by decide) (Or.inl rfl),
   (C3_admission_order_amended false (FileState.content ["1.2.3.4\n"])
      (FileState.ioError "Permission denied") "1.2.3.4" none none none witnessEnv ai_model
      "hi" none false).2.2.1 "Permission denied" (by decide) (by decide) (by decide),
   (C3_admission_order_amended false (FileState.content ["1.2.3.4\n"])
      (FileState.content ["k1\n"]) "1.2.3.4" none none (some "k1") witnessEnv ai_model
      "hi" none false).2.2.2 (by decide) (Or.inr (by decide))⟩


/-- C5: for every admitted request whose provider call exceeds the 600 s
ceiling, the outcome is a success-status response whose body is the fixed
apology string — not an error outcome. -/
theorem C5_timeout_apology (dev : Bool) (wl kf : FileState) (ip : String)
    (origin referer api_key : Option String) (env : InferenceEnv)
    (st : AIModel) (prompt : String) (model_name : Option String)
    (hwl : is_whitelisted dev wl ip = .ok true)
    (hkey : is_frontend_request origin referer = true
            ∨ verify_api_key kf api_key = .ok true) :
    (full_generate dev wl kf ip origin referer api_key env st prompt model_name true).1
      = .ok (Response.ok apologyMsg) := by
  rw [full_generate_admitted dev wl kf ip origin referer api_key env st prompt
      model_name true hwl hkey]
  rw [dispatch_generation_eq]
  rfl

/-- Witness for C5: a dev-mode loopback request with a trusted Origin that
times out receives the apology body with success status. -/
theorem C5_witness :
    (full_generate true FileState.missing FileState.missing "127.0.0.1"
        (some "http://localhost:5173") none none witnessEnv ai_model "hi" none true).1
      = .ok (Response.ok apologyMsg) :=
  C5_timeout_apology true FileState.missing FileState.missing "127.0.0.1"
    (some "http://localhost:5173") none none witnessEnv ai_model "hi" none
    (by decide) (Or.inl (by decide))

/-- C9: the admission decision is a deterministic pure function of (client
address, Origin, Referer, X-API-Key, the two allowlist files' contents,
the dev-mode flag): it is unchanged under arbitrary variation of the
inference oracle, the model state, the prompt, the model selector, and the
timeout event; a rejected request leaves the shared model state untouched;
and loading the same allowlist file twice yields the same set both times. -/
theorem C9_admission_pure (dev : Bool) (wl kf : FileState) (ip : String)
    (origin referer api_key : Option String)
    (env₁ env₂ : InferenceEnv) (st₁ st₂ : AIModel) (p₁ p₂ : String)
    (m₁ m₂ : Option String) (t₁ t₂ : Bool) :
    admissionDecision
        (full_generate dev wl kf ip origin referer api_key env₁ st₁ p₁ m₁ t₁)
      = admissionDecision
        (full_generate dev wl kf ip origin referer api_key env₂ st₂ p₂ m₂ t₂)
  ∧ (∀ d, admissionDecision
        (full_generate dev wl kf ip origin referer api_key env₁ st₁ p₁ m₁ t₁)
          = .ok (some d) →
        (full_generate dev wl kf ip origin referer api_key env₁ st₁ p₁ m₁ t₁).2 = st₁)
  ∧ (∀ fs : FileState, load_keys fs = load_keys fs) := by
  refine ⟨?_, ?_, fun _ => rfl⟩
  · cases hwl : is_whitelisted dev wl ip with
    | error e =>
      rw [full_generate_crash dev wl kf ip origin referer api_key env₁ st₁ p₁ m₁ t₁ e hwl,
          full_generate_crash dev wl kf ip origin referer api_key env₂ st₂ p₂ m₂ t₂ e hwl]
      rfl
    | ok b =>
      cases b
      · rw [full_generate_forbidden dev wl kf ip origin referer api_key env₁ st₁ p₁ m₁ t₁ hwl,
            full_generate_forbidden dev wl kf ip origin referer api_key env₂ st₂ p₂ m₂ t₂ hwl]
        rfl
      · cases hfr : is_frontend_request origin referer
        · cases hk : verify_api_key kf api_key with
          | error e =>
            rw [full_generate_keyfile_error dev wl kf ip origin referer api_key env₁ st₁ p₁
                  m₁ t₁ e hwl hfr hk,
                full_generate_keyfile_error dev wl kf ip origin referer api_key env₂ st₂ p₂
                  m₂ t₂ e hwl hfr hk]
            rfl
          | ok kb =>
            cases kb
            · rw [full_generate_unauthorized dev wl kf ip origin referer api_key env₁ st₁ p₁
                    m₁ t₁ hwl hfr hk,
                  full_generate_unauthorized dev wl kf ip origin referer api_key env₂ st₂ p₂
                    m₂ t₂ hwl hfr hk]
              rfl
            · rw [full_generate_admitted dev wl kf ip origin referer api_key env₁ st₁ p₁
                    m₁ t₁ hwl (Or.inr hk),
                  full_generate_admitted dev wl kf ip origin referer api_key env₂ st₂ p₂
                    m₂ t₂ hwl (Or.inr hk),
                  dispatch_generation_eq, dispatch_generation_eq]
              rfl
        · rw [full_generate_admitted dev wl kf ip origin referer api_key env₁ st₁ p₁
                m₁ t₁ hwl (Or.inl hfr),
              full_generate_admitted dev wl kf ip origin referer api_key env₂ st₂ p₂
                m₂ t₂ hwl (Or.inl hfr),
              dispatch_generation_eq, dispatch_generation_eq]
          rfl
  · intro d hd
    cases hwl : is_whitelisted dev wl ip with
    | error e =>
      rw [full_generate_crash dev wl kf ip origin referer api_key env₁ st₁ p₁ m₁ t₁ e hwl]
        at hd
      simp [admissionDecision] at hd
    | ok b =>
      cases b
      · rw [full_generate_forbidden dev wl kf ip origin referer api_key env₁ st₁ p₁ m₁ t₁
              hwl]
      · cases hfr : is_frontend_request origin referer
        · cases hk : verify_api_key kf api_key with
          | error e =>
            rw [full_generate_keyfile_error dev wl kf ip origin referer api_key env₁ st₁ p₁
                  m₁ t₁ e hwl hfr hk]
          | ok kb =>
            cases kb
            · rw [full_generate_unauthorized dev wl kf ip origin referer api_key env₁ st₁ p₁
                    m₁ t₁ hwl hfr hk]
            · rw [full_generate_admitted dev wl kf ip origin referer api_key env₁ st₁ p₁
                    m₁ t₁ hwl (Or.inr hk), dispatch_generation_eq] at hd
              simp [admissionDecision] at hd
        · rw [full_generate_admitted dev wl kf ip origin referer api_key env₁ st₁ p₁
                m₁ t₁ hwl (Or.inl hfr), dispatch_generation_eq] at hd
          simp [admissionDecision] at hd

/-- Witness for C9: a non-whitelisted request gets the same decision (403)
under two completely different oracle/state/prompt/timeout configurations,
and its rejection leaves the model state untouched. -/
theorem C9_witness :
    admissionDecision (full_generate false FileState.missing FileState.missing "9.9.9.9"
        none none none witnessEnv ai_model "a" none false)
      = admissionDecision (full_generate false FileState.missing FileState.missing "9.9.9.9"
        none none none loadFailEnv (AIModel.mk "x" true true) "b" (some "gemma") true)
  ∧ (full_generate false FileState.missing FileState.missing "9.9.9.9"
        none none none witnessEnv ai_model "a" none false).2 = ai_model :=
  ⟨(C9_admission_pure false FileState.missing FileState.missing "9.9.9.9" none none none
      witnessEnv loadFailEnv ai_model (AIModel.mk "x" true true) "a" "b" none (some "gemma")
      false true).1,
   (C9_admission_pure false FileState.missing FileState.missing "9.9.9.9" none none none
      witnessEnv loadFailEnv ai_model (AIModel.mk "x" true true) "a" "b" none (some "gemma")
      false true).2.1 403 (by decide)⟩

/-- Helper: when login, tokenizer load and model load all succeed,
`load_model` returns `True` and leaves both components loaded. -/
theorem load_model_ok (env : InferenceEnv) (st : AIModel) (nameOpt : Option String)
    (hlogin : env.login = .ok ())
    (htokload : ∀ n, env.tokenizerLoad n = .ok ())
    (hmodload : ∀ n, env.modelLoad n = .ok ()) :
    ∃ st', AIModel.load_model env st nameOpt = (st', true)
      ∧ st'.modelLoaded = true ∧ st'.tokenizerLoaded = true := by
  unfold AIModel.load_model
  simp only [hlogin, htokload, hmodload]
  refine ⟨_, rfl, ?_, ?_⟩ <;> rfl

/-- Helper: when tokenization succeeds and `model.generate` raises `e`,
the post-load body returns the diagnostic string for `e`. -/
theorem gen_after_load_gen_error (env : InferenceEnv) (st : AIModel)
    (prompt : String) (ntok : String → Nat) (e : String)
    (htokenize : ∀ s, env.tokenize s = .ok (ntok s))
    (hgen : ∀ a b, env.generate a b = .error e) :
    AIModel.gen_after_load env st prompt = (st, "Error generating response: " ++ e) := by
  simp only [AIModel.gen_after_load]
  rw [htokenize, hgen]

/-- Helper: under the same oracle assumptions, `generate_response` returns
the diagnostic string on every path (any requested switch succeeds, a lazy
load succeeds, then generation raises). -/
theorem generate_response_gen_error (env : InferenceEnv) (st : AIModel)
    (prompt : String) (model_name : Option String) (ntok : String → Nat) (e : String)
    (hlogin : env.login = .ok ())
    (htokload : ∀ n, env.tokenizerLoad n = .ok ())
    (hmodload : ∀ n, env.modelLoad n = .ok ())
    (htokenize : ∀ s, env.tokenize s = .ok (ntok s))
    (hgen : ∀ a b, env.generate a b = .error e) :
    (AIModel.generate_response env st prompt model_name).2
      = "Error generating response: " ++ e := by
  have hsw : ∀ s : AIModel,
      (AIModel.gen_after_switch env s prompt).2 = "Error generating response: " ++ e := by
    intro s
    unfold AIModel.gen_after_switch
    by_cases hldd : (!s.modelLoaded || !s.tokenizerLoaded) = true
    · obtain ⟨st', heq, hm, ht⟩ := load_model_ok env s none hlogin htokload hmodload
      simp only [if_pos hldd, heq]
      simp [gen_after_load_gen_error env st' prompt ntok e htokenize hgen]
    · simp only [if_neg hldd, gen_after_load_gen_error env s prompt ntok e htokenize hgen]
  unfold AIModel.generate_response
  cases model_name with
  | none => exact hsw st
  | some n =>
    by_cases hcond : n ≠ "" ∧ n ≠ st.model_name
    · obtain ⟨st', heq, hm, ht⟩ := load_model_ok env st (some n) hlogin htokload hmodload
      simp only [if_pos hcond, heq]
      exact hsw st'
    · simp only [if_neg hcond]
      exact hsw st

/-- Helper: a failing login/credential step (the shipped-config reality)
makes `load_model` return `False` without touching the loaded flags. -/
theorem load_model_login_fail (env : InferenceEnv) (st : AIModel)
    (nameOpt : Option String) (le : String) (h : env.login = .error le) :
    (AIModel.load_model env st nameOpt).2 = false
    ∧ (AIModel.load_model env st nameOpt).1.modelLoaded = st.modelLoaded
    ∧ (AIModel.load_model env st nameOpt).1.tokenizerLoaded = st.tokenizerLoaded := by
  unfold AIModel.load_model
  simp [h]

/-- Helper: with a failing login step and a not-fully-loaded model state,
`generate_response` returns one of the two load-failure diagnostic
strings ("Error: Failed to load model X" when a switch to a different
name was requested, otherwise "Error: Model failed to load"). -/
theorem generate_response_login_fail (env : InferenceEnv) (st : AIModel)
    (prompt : String) (model_name : Option String) (le : String)
    (h : env.login = .error le)
    (hnl : st.modelLoaded = false ∨ st.tokenizerLoaded = false) :
    (AIModel.generate_response env st prompt model_name).2 = "Error: Model failed to load"
    ∨ ∃ m, (AIModel.generate_response env st prompt model_name).2
        = "Error: Failed to load model " ++ m := by
  have hswitch : ∀ s : AIModel, s.modelLoaded = false ∨ s.tokenizerLoaded = false →
      (AIModel.gen_after_switch env s prompt).2 = "Error: Model failed to load" := by
    intro s hs
    unfold AIModel.gen_after_switch
    have hcond : (!s.modelLoaded || !s.tokenizerLoaded) = true := by
      rcases hs with h1 | h1 <;> simp [h1]
    have hl := load_model_login_fail env s none le h
    simp [if_pos hcond, hl.1]
    rw [if_pos hs]
  unfold AIModel.generate_response
  cases model_name with
  | none => exact Or.inl (hswitch st hnl)
  | some n =>
    by_cases hc : n ≠ "" ∧ n ≠ st.model_name
    · have hl := load_model_login_fail env st (some n) le h
      simp only [if_pos hc, hl.1, Bool.false_eq_true, if_false]
      exact Or.inr ⟨n, rfl⟩
    · simp only [if_neg hc]
      exact Or.inl (hswitch st hnl)

/-- C4 counterexample, in the world the shipped configuration realizes:
`config.py` declares no `HUGGINGFACE_API_KEY`, so the credential check at
the top of `load_model` raises `AttributeError` and the model load fails
on every admitted request — yet the outcome is a SUCCESS-status response
whose body is the model layer's diagnostic string, not the claimed
internal-error (500) outcome: the catch-all turns the provider failure
into a returned string before the route can see an exception. -/
theorem C4_counterexample :
    attrErrEnv.login
      = .error "'Settings' object has no attribute 'HUGGINGFACE_API_KEY'"
  ∧ (full_generate true FileState.missing FileState.missing "127.0.0.1"
        (some "http://localhost:5173") none none attrErrEnv ai_model "hi" none false).1
      = .ok (Response.ok "Error: Model failed to load") :=
  ⟨rfl, by decide⟩

/-- C4 amended: on an admitted, non-timed-out request the outcome is
always the success-status response carrying whatever string the model
layer returned — never an internal-error outcome, whatever the provider
does; in particular (a) when the credential/load step fails (as it always
does with the shipped configuration) the body is one of the load-failure
diagnostics "Error: Model failed to load" / "Error: Failed to load model
X", and (b) when loading succeeds and `model.generate` raises, the body
is the diagnostic "Error generating response: ...". -/
theorem C4_provider_failure_amended (dev : Bool) (wl kf : FileState) (ip : String)
    (origin referer api_key : Option String) (env : InferenceEnv)
    (st : AIModel) (prompt : String) (model_name : Option String)
    (ntok : String → Nat) (e le : String)
    (hwl : is_whitelisted dev wl ip = .ok true)
    (hkey : is_frontend_request origin referer = true
            ∨ verify_api_key kf api_key = .ok true) :
    ((full_generate dev wl kf ip origin referer api_key env st prompt model_name false).1
        = .ok (Response.ok (AIModel.generate_response env st prompt model_name).2))
  ∧ (env.login = .error le →
     st.modelLoaded = false ∨ st.tokenizerLoaded = false →
        (full_generate dev wl kf ip origin referer api_key env st prompt model_name false).1
            = .ok (Response.ok "Error: Model failed to load")
        ∨ ∃ m,
            (full_generate dev wl kf ip origin referer api_key env st prompt model_name false).1
              = .ok (Response.ok ("Error: Failed to load model " ++ m)))
  ∧ (env.login = .ok () → (∀ n, env.tokenizerLoad n = .ok ()) →
     (∀ n, env.modelLoad n = .ok ()) → (∀ s, env.tokenize s = .ok (ntok s)) →
     (∀ a b, env.generate a b = .error e) →
        (full_generate dev wl kf ip origin referer api_key env st prompt model_name false).1
          = .ok (Response.ok ("Error generating response: " ++ e))) := by
  have ha : (full_generate dev wl kf ip origin referer api_key env st prompt
        model_name false).1
      = .ok (Response.ok (AIModel.generate_response env st prompt model_name).2) := by
    rw [full_generate_admitted dev wl kf ip origin referer api_key env st prompt
        model_name false hwl hkey]
    rw [dispatch_generation_eq]
    rfl
  refine ⟨ha, ?_, ?_⟩
  · intro hlog hnl
    rcases generate_response_login_fail env st prompt model_name le hlog hnl with
      hs | ⟨m, hs⟩
    · exact Or.inl (by rw [ha, hs])
    · exact Or.inr ⟨m, by rw [ha, hs]⟩
  · intro hlogin htokload hmodload htokenize hgen
    rw [ha, generate_response_gen_error env st prompt model_name ntok e hlogin htokload
        hmodload htokenize hgen]

/-- Witness for C4's amended theorem: under the shipped-config oracle
(credential check raises) the admitted request gets the success response
with the load-failure diagnostic; under a loads-succeed-generation-raises
oracle it gets the success response with the generation diagnostic. -/
theorem C4_amended_witness :
    ((full_generate true FileState.missing FileState.missing "127.0.0.1"
        (some "http://localhost:5173") none none attrErrEnv ai_model "hi" none false).1
        = .ok (Response.ok (AIModel.generate_response attrErrEnv ai_model "hi" none).2))
  ∧ ((full_generate true FileState.missing FileState.missing "127.0.0.1"
        (some "http://localhost:5173") none none attrErrEnv ai_model "hi" none false).1
        = .ok (Response.ok "Error: Model failed to load")
      ∨ ∃ m, (full_generate true FileState.missing FileState.missing "127.0.0.1"
          (some "http://localhost:5173") none none attrErrEnv ai_model "hi" none false).1
        = .ok (Response.ok ("Error: Failed to load model " ++ m)))
  ∧ (full_generate true FileState.missing FileState.missing "127.0.0.1"
        (some "http://localhost:5173") none none failGenEnv ai_model "bye" none false).1
      = .ok (Response.ok ("Error generating response: " ++ "boom")) :=
  ⟨(C4_provider_failure_amended true FileState.missing FileState.missing "127.0.0.1"
      (some "http://localhost:5173") none none attrErrEnv ai_model "hi" none
      (fun _ => 2) "x" "'Settings' object has no attribute 'HUGGINGFACE_API_KEY'"
      (by decide) (Or.inl (by decide))).1,
   (C4_provider_failure_amended true FileState.missing FileState.missing "127.0.0.1"
      (some "http://localhost:5173") none none attrErrEnv ai_model "hi" none
      (fun _ => 2) "x" "'Settings' object has no attribute 'HUGGINGFACE_API_KEY'"
      (by decide) (Or.inl (by decide))).2.1 rfl (Or.inl rfl),
   (C4_provider_failure_amended true FileState.missing FileState.missing "127.0.0.1"
      (some "http://localhost:5173") none none failGenEnv ai_model "bye" none
      (fun _ => 2) "boom" "unused"
      (by decide) (Or.inl (by decide))).2.2 rfl (fun _ => rfl) (fun _ => rfl)
      (fun _ => rfl) (fun _ _ => rfl)⟩


/-- Helper: the executable substring check agrees with list-infix. -/
theorem hasSublist_iff (n h : List Char) : hasSublist n h = true ↔ n <:+: h := by
  induction h with
  | nil =>
    simp [hasSublist, List.isEmpty_iff, List.infix_nil]
  | cons c rest ih =>
    simp [hasSublist, List.infix_cons_iff, List.isPrefixOf_iff_prefix, ih]

/-- Helper: `pyContains` agrees with substring containment on the data. -/
theorem pyContains_iff (n h : String) : pyContains n h = true ↔ n.data <:+: h.data :=
  hasSublist_iff n.data h.data

/-- Helper: a header value mentioning a trusted fragment is non-empty
(every trusted fragment is a non-empty string). -/
theorem mentionsTrusted_ne_empty (s : String) (hm : mentionsTrusted s) : s ≠ "" := by
  rintro rfl
  obtain ⟨frag, hmem, hinf⟩ := hm
  have hlen : frag.data.length = 0 := Nat.le_zero.mp (hinf.length_le)
  have hnil : frag.data = [] := List.length_eq_zero.mp hlen
  simp only [trustedFragments, List.mem_cons, List.not_mem_nil, or_false] at hmem
  rcases hmem with h | h | h <;> subst h <;> simp at hnil

/-- Helper: the three inlined containment tests are exactly "some trusted
fragment occurs as a substring". -/
theorem mentionsTrusted_iff (s : String) :
    mentionsTrusted s ↔
      (pyContains "localhost" s || pyContains "127.0.0.1" s
        || pyContains "self-hosted-budget-ai-api.eshaam.co.za" s) = true := by
  constructor
  · rintro ⟨frag, hmem, hinf⟩
    simp only [trustedFragments, List.mem_cons, List.not_mem_nil, or_false] at hmem
    simp only [Bool.or_eq_true, pyContains_iff]
    rcases hmem with h | h | h <;> subst h
    · exact Or.inl (Or.inl hinf)
    · exact Or.inl (Or.inr hinf)
    · exact Or.inr hinf
  · intro hb
    simp only [Bool.or_eq_true, pyContains_iff] at hb
    rcases hb with (h | h) | h
    · exact ⟨"localhost", by simp [trustedFragments], h⟩
    · exact ⟨"127.0.0.1", by simp [trustedFragments], h⟩
    · exact ⟨"self-hosted-budget-ai-api.eshaam.co.za", by simp [trustedFragments], h⟩

/-- Helper: the per-header part of the inlined frontend check, as an iff. -/
theorem header_trusted_iff (o : String) :
    ((o != "") && (pyContains "localhost" o || pyContains "127.0.0.1" o
      || pyContains "self-hosted-budget-ai-api.eshaam.co.za" o)) = true
    ↔ mentionsTrusted o := by
  rw [Bool.and_eq_true, bne_iff_ne]
  constructor
  · rintro ⟨-, hc⟩
    exact (mentionsTrusted_iff o).2 hc
  · intro hm
    exact ⟨mentionsTrusted_ne_empty o hm, (mentionsTrusted_iff o).1 hm⟩

/-- Helper: the same per-header iff, in the propositional normal form that
`simp` produces from the boolean conjunction. -/
theorem header_trusted_decomp (o : String) :
    (¬o = "" ∧ ((pyContains "localhost" o = true ∨ pyContains "127.0.0.1" o = true)
        ∨ pyContains "self-hosted-budget-ai-api.eshaam.co.za" o = true))
      ↔ mentionsTrusted o := by
  constructor
  · rintro ⟨hne, hc⟩
    exact (mentionsTrusted_iff o).2 (by simpa [Bool.or_eq_true] using hc)
  · intro hm
    refine ⟨mentionsTrusted_ne_empty o hm, ?_⟩
    simpa [Bool.or_eq_true] using (mentionsTrusted_iff o).1 hm

/-- C6: a request is frontend-exempt iff the Origin header or the Referer
header is present and contains one of the trusted host fragments
("localhost", "127.0.0.1", or the production hostname) as a substring;
with both headers absent the request is not exempt. -/
theorem C6_frontend_exemption (origin referer : Option String) :
    (is_frontend_request origin referer = true ↔
      ((∃ s, origin = some s ∧ mentionsTrusted s)
        ∨ (∃ s, referer = some s ∧ mentionsTrusted s)))
  ∧ (origin = none → referer = none → is_frontend_request origin referer = false) := by
  constructor
  · unfold is_frontend_request
    cases origin with
    | none =>
      cases referer with
      | none => simp
      | some r => simp [header_trusted_decomp]
    | some o =>
      cases referer with
      | none => simp [header_trusted_decomp]
      | some r => simp [header_trusted_decomp]
  · rintro rfl rfl
    rfl

/-- Witness for C6: a trusted-substring Origin (an attacker-controlled URL
merely containing "localhost") is exempt; no headers is not exempt. -/
theorem C6_witness :
    is_frontend_request (some "http://evil.example/?localhost") none = true
  ∧ is_frontend_request none none = false :=
  ⟨(C6_frontend_exemption (some "http://evil.example/?localhost") none).1.mpr
      (Or.inl ⟨"http://evil.example/?localhost", rfl,
        ⟨"localhost", by simp [trustedFragments], by decide⟩⟩),
   (C6_frontend_exemption none none).2 rfl rfl⟩

/-- C7 counterexample: switching to the recognized name "gemma" on an
oracle where every load fails: the probe `generate_response` returns the
load-failure diagnostic string (so the load was attempted and failed), yet
the route answers with a 200-equivalent "Successfully switched" body — not
the claimed 500-equivalent diagnostic. -/
theorem C7_counterexample :
    (AIModel.generate_response loadFailEnv ai_model "Hello" (some "gemma")).2
      = "Error: Failed to load model gemma"
  ∧ (switch_model loadFailEnv ai_model "gemma").1
      = Response.ok ("Successfully switched to gemma", "gemma") :=
  ⟨rfl, rfl⟩

/-- C7 amended: an unrecognized name (neither key nor value of
`available_models`) is rejected 400 with the model state untouched, and
the outcome is identical under any two inference oracles (the provider is
never consulted); a recognized name always produces a 200-equivalent
confirmation — even when the load fails — because the probe
`generate_response` never raises, leaving the route's 500 branch
unreachable. -/
theorem C7_switch_model_amended (env env2 : InferenceEnv) (st : AIModel)
    (name : String) :
    ((available_models.any fun p => p.1 == name) = false →
     (available_models.any fun p => p.2 == name) = false →
        switch_model env st name
          = (.httpError 400 ("Model " ++ name ++ " not available"), st)
        ∧ switch_model env st name = switch_model env2 st name)
  ∧ (((available_models.any fun p => p.1 == name) = true
        ∨ (available_models.any fun p => p.2 == name) = true) →
        switch_model env st name
          = (.ok ("Successfully switched to " ++ name,
              (AIModel.generate_response env st "Hello" (some name)).1.model_name),
             (AIModel.generate_response env st "Hello" (some name)).1)) := by
  constructor
  · intro h1 h2
    constructor <;>
      simp [switch_model, get_available_models, h1, h2]
  · intro hrec
    have hcond : ((!available_models.any fun p => p.1 == name)
        && !available_models.any fun p => p.2 == name) = false := by
      rcases hrec with h | h <;> rw [h] <;> simp
    simp only [switch_model, get_available_models, hcond, Bool.false_eq_true, if_false]
    rfl

/-- Witness for C7's amended theorem: an unknown name gets 400 under the
all-failing oracle (same as under the all-succeeding one); the recognized
name "qwen" gets the 200 confirmation. -/
theorem C7_witness :
    (switch_model loadFailEnv ai_model "unknown-model"
        = (.httpError 400 "Model unknown-model not available", ai_model)
      ∧ switch_model loadFailEnv ai_model "unknown-model"
          = switch_model witnessEnv ai_model "unknown-model")
  ∧ switch_model witnessEnv ai_model "qwen"
      = (.ok ("Successfully switched to qwen",
          (AIModel.generate_response witnessEnv ai_model "Hello" (some "qwen")).1.model_name),
         (AIModel.generate_response witnessEnv ai_model "Hello" (some "qwen")).1) :=
  ⟨(C7_switch_model_amended loadFailEnv witnessEnv ai_model "unknown-model").1
      (by decide) (by decide),
   (C7_switch_model_amended witnessEnv loadFailEnv ai_model "qwen").2
      (Or.inl (by decide))⟩

/-- C8 counterexample: `GET /api/health` does NOT always succeed — the IP
middleware runs first, so with dev-mode off and a missing whitelist file a
request from any IP is rejected 403 and never reaches the handler. -/
theorem C8_counterexample :
    full_health false FileState.missing "203.0.113.5"
      = .ok (Response.httpError 403 "IP not whitelisted")
  ∧ full_health false FileState.missing "203.0.113.5"
      ≠ .ok (Response.ok ("healthy", "API is running")) :=
  ⟨rfl, by decide⟩

/-- C8 amended: for a client that passes the IP whitelist middleware,
`GET /api/health` always returns the fixed `{status, message}` body; a
client that fails it receives the middleware's 403 before the handler
runs. -/
theorem C8_health_amended (dev : Bool) (wl : FileState) (ip : String) :
    (is_whitelisted dev wl ip = .ok true →
        full_health dev wl ip = .ok (Response.ok ("healthy", "API is running")))
  ∧ (is_whitelisted dev wl ip = .ok false →
        full_health dev wl ip = .ok (Response.httpError 403 "IP not whitelisted")) := by
  constructor
  · intro h
    unfold full_health
    rw [h]
    rfl
  · intro h
    unfold full_health
    rw [h]

/-- Witness for C8's amended theorem: a dev-mode loopback health check
succeeds with the fixed body; a non-whitelisted client gets 403. -/
theorem C8_witness :
    full_health true FileState.missing "127.0.0.1"
      = .ok (Response.ok ("healthy", "API is running"))
  ∧ full_health false FileState.missing "198.51.100.7"
      = .ok (Response.httpError 403 "IP not whitelisted") :=
  ⟨(C8_health_amended true FileState.missing "127.0.0.1").1 (by decide),
   (C8_health_amended false FileState.missing "198.51.100.7").2 (by decide)⟩

/-- Helper: the generation body after a successful load returns the fixed
apology, a diagnostic string carrying the raised message, or a non-empty
stripped decode result. -/
theorem gen_after_load_shape (env : InferenceEnv) (st : AIModel) (prompt : String) :
    (AIModel.gen_after_load env st prompt).2 = sorryMsg
  ∨ (∃ e, (AIModel.gen_after_load env st prompt).2 = "Error generating response: " ++ e)
  ∨ (∃ s, (AIModel.gen_after_load env st prompt).2 = pyStrip s
        ∧ (AIModel.gen_after_load env st prompt).2 ≠ "") := by
  simp only [AIModel.gen_after_load]
  cases h1 : env.tokenize (formatted_prompt st.model_name prompt) with
  | error e => exact Or.inr (Or.inl ⟨e, rfl⟩)
  | ok n =>
    cases h2 : env.generate st.model_name (formatted_prompt st.model_name prompt) with
    | error e => exact Or.inr (Or.inl ⟨e, rfl⟩)
    | ok outsOpt =>
      cases outsOpt with
      | none => exact Or.inl rfl
      | some outputs =>
        by_cases h3 : outputs.length = 0
        · simp only [if_pos h3]
          exact Or.inl trivial
        · simp only [if_neg h3]
          by_cases h4 : (outputs.headD []).length ≤ n
          · simp only [if_pos h4]
            exact Or.inl trivial
          · simp only [if_neg h4]
            cases h5 : env.decode ((outputs.headD []).drop n) with
            | ok r =>
              by_cases h6 : pyStrip r = ""
              · simp only [h6, if_pos rfl]
                exact Or.inl rfl
              · simp only [if_neg h6]
                exact Or.inr (Or.inr ⟨r, rfl, h6⟩)
            | error e1 =>
              cases h7 : env.decode (outputs.headD []) with
              | error e2 => exact Or.inl rfl
              | ok r =>
                by_cases h8 : pyContains (formatted_prompt st.model_name prompt)
                    (pyStrip r) = true
                · simp only [if_pos h8]
                  by_cases h9 :
                      pyStrip (pyReplace (pyStrip r) (formatted_prompt st.model_name prompt) "")
                        = ""
                  · simp only [h9, if_pos rfl]
                    exact Or.inl rfl
                  · simp only [if_neg h9]
                    exact Or.inr (Or.inr
                      ⟨pyReplace (pyStrip r) (formatted_prompt st.model_name prompt) "",
                       rfl, h9⟩)
                · simp only [h8, Bool.false_eq_true, if_false]
                  by_cases h10 : pyStrip r = ""
                  · simp only [h10, if_pos rfl]
                    exact Or.inl rfl
                  · simp only [if_neg h10]
                    exact Or.inr (Or.inr ⟨r, rfl, h10⟩)

/-- Helper: the stage after the optional switch additionally may report a
lazy-load failure. -/
theorem gen_after_switch_shape (env : InferenceEnv) (st : AIModel) (prompt : String) :
    (AIModel.gen_after_switch env st prompt).2 = "Error: Model failed to load"
  ∨ (AIModel.gen_after_switch env st prompt).2 = sorryMsg
  ∨ (∃ e, (AIModel.gen_after_switch env st prompt).2 = "Error generating response: " ++ e)
  ∨ (∃ s, (AIModel.gen_after_switch env st prompt).2 = pyStrip s
        ∧ (AIModel.gen_after_switch env st prompt).2 ≠ "") := by
  unfold AIModel.gen_after_switch
  by_cases h : (!st.modelLoaded || !st.tokenizerLoaded) = true
  · simp only [if_pos h]
    cases hb : (AIModel.load_model env st none).2
    · simp [hb]
    · simp only [hb, if_true]
      rcases gen_after_load_shape env (AIModel.load_model env st none).1 prompt with
        hs | ⟨e, hs⟩ | ⟨s, hs, hne⟩
      · exact Or.inr (Or.inl hs)
      · exact Or.inr (Or.inr (Or.inl ⟨e, hs⟩))
      · exact Or.inr (Or.inr (Or.inr ⟨s, hs, hne⟩))
  · simp only [if_neg h]
    rcases gen_after_load_shape env st prompt with hs | ⟨e, hs⟩ | ⟨s, hs, hne⟩
    · exact Or.inr (Or.inl hs)
    · exact Or.inr (Or.inr (Or.inl ⟨e, hs⟩))
    · exact Or.inr (Or.inr (Or.inr ⟨s, hs, hne⟩))

/-- C10: the public generation function is total: for every oracle, state,
prompt and optional model selector it returns a string (this embedding of
the catch-all handlers is a function into `AIModel × String`, with every
raise of the inference stack converted on the spot); moreover the returned
string is one of the two load-failure diagnostics, the fixed apology, a
"Error generating response: ..." diagnostic, or a non-empty stripped
decode result. -/
theorem C10_generate_response_total (env : InferenceEnv) (st : AIModel)
    (prompt : String) (model_name : Option String) :
    (∃ m, (AIModel.generate_response env st prompt model_name).2
        = "Error: Failed to load model " ++ m)
  ∨ (AIModel.generate_response env st prompt model_name).2 = "Error: Model failed to load"
  ∨ (AIModel.generate_response env st prompt model_name).2 = sorryMsg
  ∨ (∃ e, (AIModel.generate_response env st prompt model_name).2
        = "Error generating response: " ++ e)
  ∨ (∃ s, (AIModel.generate_response env st prompt model_name).2 = pyStrip s
        ∧ (AIModel.generate_response env st prompt model_name).2 ≠ "") := by
  unfold AIModel.generate_response
  cases model_name with
  | none => exact Or.inr (gen_after_switch_shape env st prompt)
  | some n =>
    by_cases hc : n ≠ "" ∧ n ≠ st.model_name
    · simp only [if_pos hc]
      cases hb : (AIModel.load_model env st (some n)).2
      · simp [hb]
      · simp only [hb, if_true]
        exact Or.inr (gen_after_switch_shape env (AIModel.load_model env st (some n)).1 prompt)
    · simp only [if_neg hc]
      exact Or.inr (gen_after_switch_shape env st prompt)

end BudgetAI
